import Mathlib

/- A shallow embedding of backend/search_tools.py: the tool abstraction, the
   two concrete tools (content search and course outline) and the tool
   registry/dispatcher, together with the vector-store collaborator interface
   they consume.  Stateful pieces (each tool's last_sources attribute, the
   manager's name-to-tool mapping) are modelled by explicit state passing;
   Python exceptions are modelled with Except. -/

/-- Python runtime values as far as this layer inspects them: the tools
receive keyword arguments that are strings, integers or None. -/
inductive Val where
  | none
  | str (s : String)
  | int (n : Int)
deriving DecidableEq

/-- Python truthiness for the values above (None, the empty string and 0 are falsy). -/
def Val.truthy : Val → Bool
  | .none => false
  | .str s => s != ""
  | .int n => n != 0

/-- Python str() of a value, as used by f-string interpolation. -/
def Val.pyStr : Val → String
  | .none => "None"
  | .str s => s
  | .int n => toString n

/-- Truthiness of an optional string (None and the empty string are falsy). -/
def pyTruthyOptStr : Option String → Bool
  | Option.none => false
  | some s => s != ""

/-- Metadata attached to one search-result chunk; fields are optional because
the Python code reads them with dict.get. -/
structure ChunkMeta where
  course_title : Option String
  lesson_number : Option Int
deriving DecidableEq

/-- The SearchResults value produced by the store collaborator: index-aligned
documents and metadata plus an optional error indicator. -/
structure SearchResults where
  documents : List String
  metadata : List ChunkMeta
  error : Option String
deriving DecidableEq

/-- Modelled from the spec: the Search Query Result's emptiness test ("Empty
(no pairs, no error) is a valid, distinct state meaning no matches"); the
concrete SearchResults class lives in vector_store.py, outside the provided
sources. -/
def SearchResults.is_empty (r : SearchResults) : Bool := r.documents.isEmpty

/-- One lesson record inside a course-metadata record. -/
structure Lesson where
  lesson_number : Option Int
  lesson_title : Option String
  lesson_link : Option String
deriving DecidableEq

/-- A course-metadata record from the store's catalogue. -/
structure CourseMeta where
  title : Option String
  course_link : Option String
  instructor : Option String
  lessons : List Lesson
deriving DecidableEq

/-- A Source Record: citation metadata stashed by a tool for the UI. -/
structure SourceRecord where
  display_text : String
  course_title : String
  lesson_number : Option Int
  lesson_link : Option String
deriving DecidableEq

/-- The store collaborator interface the tools consume: unified search, bulk
course metadata (a call that may raise, hence Except — matching the
try/except guard in _get_course_metadata), and fuzzy course-name resolution
(_resolve_course_name).  A VectorStore value is one fixed behaviour of the
collaborator. -/
structure VectorStore where
  search : Val → Val → Val → SearchResults
  get_all_courses_metadata : Except String (List CourseMeta)
  resolve_course_name : Val → Option String

/-- CourseSearchTool._get_course_metadata: scan the catalogue for the first
course whose title equals the given one; the Python code returns the empty
dict (here Option.none) when the course is absent or when the store raises
(the exception is caught). -/
def _get_course_metadata (store : VectorStore) (course_title : String) : Option CourseMeta :=
  match store.get_all_courses_metadata with
  | .error _ => Option.none
  | .ok all_courses =>
      match all_courses.find? (fun cm => cm.title == some course_title) with
      | some cm => some cm
      | Option.none => Option.none

/-- The inner-loop search for a lesson's link inside one course-metadata
record: first lesson whose lesson_number equals the given one, else None. -/
def lessonLinkScan (cm : CourseMeta) (lesson_num : Int) : Option String :=
  match cm.lessons.find? (fun l => l.lesson_number == some lesson_num) with
  | some lesson => lesson.lesson_link
  | Option.none => Option.none

/-- The cache-fill step of _format_results: if the course title is not yet a
key of course_lessons_cache, store the (possibly empty) metadata lookup for
it; Python dict insertion appends the new key at the end. -/
def cacheFill (store : VectorStore) (cache : List (String × Option CourseMeta))
    (course_title : String) : List (String × Option CourseMeta) :=
  if (cache.lookup course_title).isSome then cache
  else cache ++ [(course_title, _get_course_metadata store course_title)]

/-- Reading the lesson link out of the (filled) cache: only a truthy cached
record is scanned for the lesson number. -/
def linkFromCache (cache1 : List (String × Option CourseMeta))
    (course_title : String) (lesson_num : Option Int) : Option String :=
  match cache1.lookup course_title, lesson_num with
  | some (some cm), some n => lessonLinkScan cm n
  | _, _ => Option.none

/-- The lesson-link step of one iteration of _format_results' loop: guard on
a truthy, non-sentinel course title and a present lesson number, consult the
per-call cache (course_lessons_cache), filling it on a miss, and scan the
cached record's lessons.  Returns the link together with the updated cache. -/
def rowLink (store : VectorStore) (cache : List (String × Option CourseMeta))
    (course_title : String) (lesson_num : Option Int) :
    Option String × List (String × Option CourseMeta) :=
  if course_title != "" && course_title != "unknown" && lesson_num.isSome then
    let cache1 := cacheFill store cache course_title
    (linkFromCache cache1 course_title lesson_num, cache1)
  else (Option.none, cache)

/-- The loop of CourseSearchTool._format_results over the zipped
(document, metadata) pairs, threading the metadata cache and producing the
formatted entries and the source records. -/
def formatLoop (store : VectorStore) :
    List (String × ChunkMeta) → List (String × Option CourseMeta) →
    List String × List SourceRecord
  | [], _cache => ([], [])
  | (doc, meta) :: rest, cache =>
      let course_title := meta.course_title.getD "unknown"
      let lesson_num := meta.lesson_number
      let header :=
        "[" ++ course_title ++
          (match lesson_num with
           | some n => " - Lesson " ++ toString n
           | Option.none => "") ++ "]"
      let rl := rowLink store cache course_title lesson_num
      let source_obj : SourceRecord :=
        { display_text :=
            match lesson_num with
            | Option.none => course_title
            | some n => course_title ++ " - Lesson " ++ toString n,
          course_title := course_title,
          lesson_number := lesson_num,
          lesson_link := rl.1 }
      let tail := formatLoop store rest rl.2
      ((header ++ "\n" ++ doc) :: tail.1, source_obj :: tail.2)

/-- CourseSearchTool._format_results: format the results and replace the
tool's last_sources with the freshly built list. -/
def _format_results (store : VectorStore) (results : SearchResults) :
    String × List SourceRecord :=
  let fl := formatLoop store (results.documents.zip results.metadata) []
  (String.intercalate "\n\n" fl.1, fl.2)

/-- CourseSearchTool.execute: run the store search, surface a truthy error
verbatim, describe an empty result naming the truthy filters, otherwise
format.  The pair returned is (text, last_sources after the call). -/
def CourseSearchTool.execute (store : VectorStore) (last_sources : List SourceRecord)
    (query course_name lesson_number : Val) : String × List SourceRecord :=
  let results := store.search query course_name lesson_number
  if pyTruthyOptStr results.error then
    (results.error.getD "", last_sources)
  else if results.is_empty then
    let filter_info :=
      (if course_name.truthy then " in course '" ++ course_name.pyStr ++ "'" else "") ++
      (if lesson_number.truthy then " in lesson " ++ lesson_number.pyStr else "")
    ( "No relevant content found" ++ filter_info ++ ".", last_sources)
  else
    _format_results store results

/-- Spec-side: the course title of a result row, with missing titles read as
the sentinel used by the formatting code. -/
def titleOf (m : ChunkMeta) : String := m.course_title.getD "unknown"

/-- Spec-side: the header line of one formatted block. -/
def specHeader (m : ChunkMeta) : String :=
  match m.lesson_number with
  | Option.none => "[" ++ titleOf m ++ "]"
  | some n => "[" ++ titleOf m ++ " - Lesson " ++ toString n ++ "]"

/-- Spec-side: the display text of one Source Record. -/
def displayTextOf (m : ChunkMeta) : String :=
  match m.lesson_number with
  | Option.none => titleOf m
  | some n => titleOf m ++ " - Lesson " ++ toString n

theorem formatLoop_fst (store : VectorStore) :
    ∀ (rows : List (String × ChunkMeta)) (cache : List (String × Option CourseMeta)),
      (formatLoop store rows cache).1 = rows.map (fun p => specHeader p.2 ++ "\n" ++ p.1)
  | [], _ => rfl
  | (doc, meta) :: rest, cache => by
      simp only [formatLoop, List.map_cons, List.cons.injEq]
      constructor
      · cases h : meta.lesson_number <;>
          simp [specHeader, titleOf, h, String.append_assoc, String.append_empty]
      · exact formatLoop_fst store rest _

theorem formatLoop_proj (store : VectorStore) :
    ∀ (rows : List (String × ChunkMeta)) (cache : List (String × Option CourseMeta)),
      (formatLoop store rows cache).2.map
          (fun sr => (sr.display_text, sr.course_title, sr.lesson_number)) =
        rows.map (fun p => (displayTextOf p.2, titleOf p.2, p.2.lesson_number))
  | [], _ => rfl
  | (doc, meta) :: rest, cache => by
      simp only [formatLoop, List.map_cons, List.cons.injEq]
      constructor
      · cases h : meta.lesson_number <;> simp [displayTextOf, titleOf, h]
      · exact formatLoop_proj store rest _

theorem formatLoop_len (store : VectorStore)
    (rows : List (String × ChunkMeta)) (cache : List (String × Option CourseMeta)) :
    (formatLoop store rows cache).2.length = rows.length := by
  have h := congrArg List.length (formatLoop_proj store rows cache)
  simpa using h

/-- Claim C1: when the store result carries N >= 1 aligned (document,
metadata) pairs and no error, execute returns exactly the N header blocks in
input order joined by a blank line, and replaces the tool's source list with
exactly N Source Records in the same order whose display text is the title,
extended with " - Lesson n" when the pair has a lesson number. -/
theorem execute_formats_results (store : VectorStore) (ls : List SourceRecord)
    (q cn ln : Val) (r : SearchResults) (N : Nat)
    (hr : store.search q cn ln = r)
    (herr : r.error = Option.none)
    (hdoc : r.documents.length = N)
    (hmeta : r.metadata.length = N)
    (hpos : 1 ≤ N) :
    (CourseSearchTool.execute store ls q cn ln).1 =
      String.intercalate "\n\n"
        ((r.documents.zip r.metadata).map (fun p => specHeader p.2 ++ "\n" ++ p.1))
    ∧ (CourseSearchTool.execute store ls q cn ln).2.length = N
    ∧ (CourseSearchTool.execute store ls q cn ln).2.map
        (fun sr => (sr.display_text, sr.course_title, sr.lesson_number)) =
      (r.documents.zip r.metadata).map
        (fun p => (displayTextOf p.2, titleOf p.2, p.2.lesson_number)) := by
  have hne : r.documents.isEmpty = false := by
    cases hd : r.documents with
    | nil => rw [hd] at hdoc; simp at hdoc; omega
    | cons a l => simp
  simp only [CourseSearchTool.execute, hr, herr, pyTruthyOptStr, SearchResults.is_empty,
    hne, Bool.false_eq_true, if_false, _format_results]
  refine ⟨?_, ?_, ?_⟩
  · rw [formatLoop_fst]
  · rw [formatLoop_len, List.length_zip, hdoc, hmeta, Nat.min_self]
  · rw [formatLoop_proj]

/-- A store for the C1 witness: one result pair (the end-to-end example of
the spec), an empty catalogue, no resolution. -/
def w1store : VectorStore :=
  { search := fun _ _ _ =>
      { documents := ["Protocol details"],
        metadata := [{ course_title := some "MCP", lesson_number := some 2 }],
        error := Option.none },
    get_all_courses_metadata := .ok [],
    resolve_course_name := fun _ => Option.none }

theorem execute_formats_results_witness :
    (CourseSearchTool.execute w1store [] (Val.str "q") Val.none Val.none).1 =
      String.intercalate "\n\n"
        ((["Protocol details"].zip [({ course_title := some "MCP", lesson_number := some 2 } : ChunkMeta)]).map
          (fun p => specHeader p.2 ++ "\n" ++ p.1))
    ∧ (CourseSearchTool.execute w1store [] (Val.str "q") Val.none Val.none).2.length = 1
    ∧ (CourseSearchTool.execute w1store [] (Val.str "q") Val.none Val.none).2.map
        (fun sr => (sr.display_text, sr.course_title, sr.lesson_number)) =
      (["Protocol details"].zip [({ course_title := some "MCP", lesson_number := some 2 } : ChunkMeta)]).map
        (fun p => (displayTextOf p.2, titleOf p.2, p.2.lesson_number)) :=
  execute_formats_results w1store [] (Val.str "q") Val.none Val.none
    { documents := ["Protocol details"],
      metadata := [{ course_title := some "MCP", lesson_number := some 2 }],
      error := Option.none } 1 rfl rfl rfl rfl (by decide)

/-- A store whose search result has the error field set to the empty string:
the result is "set" yet falsy for the truthiness test in execute. -/
def c2store : VectorStore :=
  { search := fun _ _ _ => { documents := [], metadata := [], error := some "" },
    get_all_courses_metadata := .ok [],
    resolve_course_name := fun _ => Option.none }

/-- Claim C2 counterexample: with the error field set (to the empty string),
execute does not return that error string — the truthiness test treats it as
no error and the empty-result message is produced instead. -/
theorem execute_error_empty_cex :
    (c2store.search (Val.str "q") Val.none Val.none).error = some "" ∧
    (CourseSearchTool.execute c2store [] (Val.str "q") Val.none Val.none).1 =
      "No relevant content found." ∧
    (CourseSearchTool.execute c2store [] (Val.str "q") Val.none Val.none).1 ≠ "" := by
  refine ⟨rfl, by decide, by decide⟩

/-- Claim C2 (amended): when the store result's error field is set to a
non-empty string, execute returns exactly that string, independent of the
result's documents and metadata, and leaves the tool's source list
unchanged. -/
theorem execute_error_verbatim (store : VectorStore) (ls : List SourceRecord)
    (q cn ln : Val) (e : String)
    (herr : (store.search q cn ln).error = some e) (he : e ≠ "") :
    CourseSearchTool.execute store ls q cn ln = (e, ls) := by
  simp only [CourseSearchTool.execute, herr, pyTruthyOptStr]
  simp [he]

/-- A store for the C2 witness: an erroring search that nevertheless carries
documents and metadata, to exhibit independence from them. -/
def w2store : VectorStore :=
  { search := fun _ _ _ =>
      { documents := ["d"],
        metadata := [{ course_title := some "T", lesson_number := some 1 }],
        error := some "Store unavailable" },
    get_all_courses_metadata := .ok [],
    resolve_course_name := fun _ => Option.none }

/-- A pre-existing source record, to exhibit that error paths leave the
source list untouched. -/
def wsrc : SourceRecord :=
  { display_text := "Old", course_title := "Old", lesson_number := Option.none,
    lesson_link := Option.none }

theorem execute_error_verbatim_witness :
    CourseSearchTool.execute w2store [wsrc] (Val.str "q") Val.none Val.none =
      ("Store unavailable", [wsrc]) :=
  execute_error_verbatim w2store [wsrc] (Val.str "q") Val.none Val.none
    "Store unavailable" rfl (by decide)

/-- A store whose search always comes back empty, with no error. -/
def c4store : VectorStore :=
  { search := fun _ _ _ => { documents := [], metadata := [], error := Option.none },
    get_all_courses_metadata := .ok [],
    resolve_course_name := fun _ => Option.none }

/-- Claim C4 counterexample: with lesson_number 0 supplied and an empty
result, the message omits the lesson filter (0 is falsy), contrary to the
claimed form. -/
theorem empty_results_lesson_zero_cex :
    (CourseSearchTool.execute c4store [] (Val.str "q") (Val.str "C") (Val.int 0)).1 =
      "No relevant content found in course 'C'." ∧
    (CourseSearchTool.execute c4store [] (Val.str "q") (Val.str "C") (Val.int 0)).1 ≠
      "No relevant content found in course 'C' in lesson 0." := by
  refine ⟨by decide, by decide⟩

/-- Conversion of an optional string argument to the Python value passed. -/
def optStrVal : Option String → Val
  | Option.none => Val.none
  | some s => Val.str s

/-- Conversion of an optional integer argument to the Python value passed. -/
def optIntVal : Option Int → Val
  | Option.none => Val.none
  | some n => Val.int n

/-- Claim C4 (amended): with zero pairs and no error, the message names the
course filter exactly when a non-empty course_name string was supplied and
the lesson filter exactly when a nonzero lesson_number was supplied (the
truthiness test drops lesson number 0 and an empty course name), and no
sources are recorded by the call. -/
theorem empty_results_message (store : VectorStore) (ls : List SourceRecord)
    (q : Val) (cno : Option String) (lno : Option Int)
    (herr : (store.search q (optStrVal cno) (optIntVal lno)).error = Option.none)
    (hdoc : (store.search q (optStrVal cno) (optIntVal lno)).documents = []) :
    CourseSearchTool.execute store ls q (optStrVal cno) (optIntVal lno) =
      ( "No relevant content found" ++
        (match cno with
         | Option.none => ""
         | some s => if s = "" then "" else " in course '" ++ s ++ "'") ++
        (match lno with
         | Option.none => ""
         | some n => if n = 0 then "" else " in lesson " ++ toString n) ++ ".", ls) := by
  simp only [CourseSearchTool.execute, herr, pyTruthyOptStr, SearchResults.is_empty, hdoc]
  cases cno with
  | none =>
      cases lno with
      | none => simp [optStrVal, optIntVal, Val.truthy]
      | some n =>
          by_cases hn : n = 0 <;>
            simp [optStrVal, optIntVal, Val.truthy, Val.pyStr, hn]
  | some s =>
      cases lno with
      | none =>
          by_cases hs : s = "" <;>
            simp [optStrVal, optIntVal, Val.truthy, Val.pyStr, hs]
      | some n =>
          by_cases hs : s = "" <;> by_cases hn : n = 0 <;>
            simp [optStrVal, optIntVal, Val.truthy, Val.pyStr, hs, hn,
              String.append_assoc]

theorem empty_results_message_witness :
    CourseSearchTool.execute c4store [] (Val.str "q") (optStrVal (some "X")) (optIntVal (some 3)) =
      ("No relevant content found in course 'X' in lesson 3.", []) := by
  simpa using empty_results_message c4store [] (Val.str "q") (some "X") (some 3) rfl rfl

/-- Spec-side: the unmemoized per-row lesson-link lookup the spec describes —
the lesson_link of the lesson with matching lesson number inside the
course-metadata record whose title equals the row's course title, and none
when the course or lesson is not found or when the metadata fetch raises. -/
def specRowLink (store : VectorStore) (m : ChunkMeta) : Option String :=
  match m.lesson_number with
  | Option.none => Option.none
  | some n =>
      match store.get_all_courses_metadata with
      | .error _ => Option.none
      | .ok all_courses =>
          match all_courses.find? (fun cm => cm.title == some (titleOf m)) with
          | Option.none => Option.none
          | some cm =>
              match cm.lessons.find? (fun l => l.lesson_number == some n) with
              | Option.none => Option.none
              | some lesson => lesson.lesson_link

/-- Spec-side: the link the formatting code actually records for a row — the
unmemoized lookup, guarded by the code's sentinel test on the row's title. -/
def guardedRowLink (store : VectorStore) (m : ChunkMeta) : Option String :=
  if titleOf m != "" && titleOf m != "unknown" then specRowLink store m
  else Option.none

theorem specRowLink_eq (store : VectorStore) (m : ChunkMeta) :
    specRowLink store m =
      match m.lesson_number, _get_course_metadata store (titleOf m) with
      | some n, some cm => lessonLinkScan cm n
      | _, _ => Option.none := by
  unfold specRowLink _get_course_metadata lessonLinkScan
  rcases m.lesson_number with _ | n
  · rcases store.get_all_courses_metadata with e | all <;> simp
  · rcases store.get_all_courses_metadata with e | all
    · simp
    · rcases hf : all.find? (fun cm => cm.title == some (titleOf m)) with _ | cm
      · simp [hf]
      · rcases hl : cm.lessons.find? (fun l => l.lesson_number == some n) with _ | lesson <;>
          simp [hf, hl]

theorem lookup_mem {β : Type} {k : String} {v : β} :
    ∀ {d : List (String × β)}, d.lookup k = some v → (k, v) ∈ d
  | [], h => by simp [List.lookup] at h
  | (a, b) :: d, h => by
      by_cases hk : k = a
      · subst hk
        simp [List.lookup] at h
        subst h
        exact List.mem_cons_self _ _
      · have hk2 : (k == a) = false := by simp [hk]
        simp [List.lookup, hk2] at h
        exact List.mem_cons_of_mem _ (lookup_mem h)

theorem lookup_append_left_none {β : Type} {k : String} :
    ∀ {d₁ : List (String × β)} (d₂ : List (String × β)),
      d₁.lookup k = Option.none → (d₁ ++ d₂).lookup k = d₂.lookup k
  | [], d₂, _ => rfl
  | (a, b) :: d₁, d₂, h => by
      rw [List.cons_append]
      by_cases hk : k = a
      · exfalso
        subst hk
        rw [show List.lookup k ((k, b) :: d₁) = some b from by simp [List.lookup]] at h
        exact Option.noConfusion h
      · have hk2 : (k == a) = false := by simp [hk]
        have h1 : List.lookup k ((a, b) :: d₁) = List.lookup k d₁ := by
          simp [List.lookup, hk2]
        have h2 : List.lookup k ((a, b) :: (d₁ ++ d₂)) = List.lookup k (d₁ ++ d₂) := by
          simp [List.lookup, hk2]
        rw [h1] at h
        rw [h2, lookup_append_left_none d₂ h]

/-- Coherence of the per-call metadata cache: every entry holds exactly what
the uncached metadata lookup would produce. -/
def CacheOK (store : VectorStore) (cache : List (String × Option CourseMeta)) : Prop :=
  ∀ p ∈ cache, p.2 = _get_course_metadata store p.1

theorem cacheFill_lookup (store : VectorStore) {cache : List (String × Option CourseMeta)}
    (hc : CacheOK store cache) (t : String) :
    (cacheFill store cache t).lookup t = some (_get_course_metadata store t) := by
  unfold cacheFill
  rcases ho : cache.lookup t with _ | v
  · simp only [ho, Option.isSome_none, Bool.false_eq_true, if_false]
    rw [lookup_append_left_none _ ho]
    simp [List.lookup]
  · simp only [ho, Option.isSome_some, if_true]
    exact congrArg some (hc _ (lookup_mem ho))

theorem cacheFill_ok (store : VectorStore) {cache : List (String × Option CourseMeta)}
    (hc : CacheOK store cache) (t : String) : CacheOK store (cacheFill store cache t) := by
  unfold cacheFill
  split
  · exact hc
  · intro p hp
    rcases List.mem_append.mp hp with h1 | h2
    · exact hc _ h1
    · simp at h2
      rw [h2]

theorem rowLink_correct (store : VectorStore) {cache : List (String × Option CourseMeta)}
    (hc : CacheOK store cache) (t : String) (ln : Option Int) :
    (rowLink store cache t ln).1 =
      (if t != "" && t != "unknown" then
        match ln, _get_course_metadata store t with
        | some n, some cm => lessonLinkScan cm n
        | _, _ => Option.none
      else Option.none)
    ∧ CacheOK store (rowLink store cache t ln).2 := by
  unfold rowLink
  rcases hln : ln with _ | n
  · simp only [Option.isSome_none, Bool.and_false, Bool.false_eq_true, if_false]
    refine ⟨?_, hc⟩
    split
    · rcases _get_course_metadata store t with _ | cm <;> rfl
    · rfl
  · by_cases hg : (t != "" && t != "unknown") = true
    · simp only [hg, Option.isSome_some, Bool.and_true, Bool.true_and, if_true]
      refine ⟨?_, cacheFill_ok store hc t⟩
      simp only [linkFromCache, cacheFill_lookup store hc t]
      rcases _get_course_metadata store t with _ | cm <;> rfl
    · have hg2 : (t != "" && t != "unknown") = false := by simpa using hg
      simp only [hg2, Bool.false_and, Bool.false_eq_true, if_false]
      exact ⟨trivial, hc⟩

theorem formatLoop_links (store : VectorStore) :
    ∀ (rows : List (String × ChunkMeta)) (cache : List (String × Option CourseMeta)),
      CacheOK store cache →
      (formatLoop store rows cache).2.map (fun sr => sr.lesson_link) =
        rows.map (fun p => guardedRowLink store p.2)
  | [], _, _ => rfl
  | (doc, meta) :: rest, cache, hc => by
      simp only [formatLoop, List.map_cons, List.cons.injEq]
      obtain ⟨h1, h2⟩ := rowLink_correct store hc (meta.course_title.getD "unknown") meta.lesson_number
      constructor
      · rw [h1, guardedRowLink, specRowLink_eq]
        simp [titleOf]
      · exact formatLoop_links store rest _ h2

/-- Claim C7 (amended): on the formatting path, the recorded Source Records'
lesson links equal, row by row, the unmemoized spec lookup (link of the
matching lesson of the course-metadata record whose title equals the row's
course title; none when the course or lesson is not found or the metadata
fetch raises) guarded by the code's sentinel test — a row whose title is
empty or the literal "unknown" always gets none.  The left side is computed
with the per-call memo cache, the right side without it, so the equation is
also the memoization-equivalence statement; failures of the secondary lookup
are absorbed into none and never escape execute. -/
theorem lesson_link_resolution (store : VectorStore) (ls : List SourceRecord)
    (q cn ln : Val) (r : SearchResults)
    (hr : store.search q cn ln = r)
    (herr : r.error = Option.none)
    (hne : r.documents ≠ []) :
    (CourseSearchTool.execute store ls q cn ln).2.map (fun sr => sr.lesson_link) =
      (r.documents.zip r.metadata).map (fun p => guardedRowLink store p.2) := by
  have hne2 : r.documents.isEmpty = false := by
    rcases hd : r.documents with _ | ⟨a, l⟩
    · exact absurd hd hne
    · simp
  simp only [CourseSearchTool.execute, hr, herr, pyTruthyOptStr, SearchResults.is_empty,
    hne2, Bool.false_eq_true, if_false, _format_results]
  exact formatLoop_links store _ [] (by intro p hp; simp at hp)

/-- A store with a course literally titled "unknown": its lesson 1 has a
link, and the search returns a row attributed to that course and lesson. -/
def c7store : VectorStore :=
  { search := fun _ _ _ =>
      { documents := ["d"],
        metadata := [{ course_title := some "unknown", lesson_number := some 1 }],
        error := Option.none },
    get_all_courses_metadata := .ok
      [{ title := some "unknown", course_link := Option.none, instructor := Option.none,
         lessons := [{ lesson_number := some 1, lesson_title := some "t",
                       lesson_link := some "http://x" }] }],
    resolve_course_name := fun _ => Option.none }

/-- Claim C7 counterexample: the row's course title "unknown" names an
existing course whose lesson 1 carries a link, yet the recorded Source
Record's lesson_link is none — the code skips the lookup for the sentinel
title, contrary to the claimed equality with the metadata lookup. -/
theorem lesson_link_unknown_title_cex :
    (CourseSearchTool.execute c7store [] (Val.str "q") Val.none Val.none).2.map
        (fun sr => sr.lesson_link) = [Option.none] ∧
    specRowLink c7store { course_title := some "unknown", lesson_number := some 1 } =
      some "http://x" := by
  refine ⟨by decide, by decide⟩

/-- A store for the C7 witness: two rows of the same course share the memo
cache; lesson 1 has a link, lesson 2 has none. -/
def w7store : VectorStore :=
  { search := fun _ _ _ =>
      { documents := ["d1", "d2"],
        metadata := [{ course_title := some "MCP", lesson_number := some 1 },
                     { course_title := some "MCP", lesson_number := some 2 }],
        error := Option.none },
    get_all_courses_metadata := .ok
      [{ title := some "MCP", course_link := some "http://c", instructor := some "I",
         lessons := [{ lesson_number := some 1, lesson_title := some "a",
                       lesson_link := some "http://l1" },
                     { lesson_number := some 2, lesson_title := some "b",
                       lesson_link := Option.none }] }],
    resolve_course_name := fun _ => Option.none }

theorem lesson_link_resolution_witness :
    (CourseSearchTool.execute w7store [] (Val.str "q") Val.none Val.none).2.map
        (fun sr => sr.lesson_link) = [some "http://l1", Option.none] :=
  (lesson_link_resolution w7store [] (Val.str "q") Val.none Val.none
    (w7store.search (Val.str "q") Val.none Val.none) rfl rfl (by decide)).trans
    (by decide)

/-- CourseOutlineTool._format_single_course: render one course's outline and
set the tool's last_sources to the single course-level Source Record. -/
def _format_single_course (course : CourseMeta) : String × List SourceRecord :=
  let title := course.title.getD "Unknown Course"
  let lines :=
    ["## " ++ title] ++
    (if pyTruthyOptStr course.course_link then
        ["**Course Link:** " ++ course.course_link.getD ""] else []) ++
    (if pyTruthyOptStr course.instructor then
        ["**Instructor:** " ++ course.instructor.getD ""] else []) ++
    (if course.lessons.isEmpty then ["\n*No lessons found for this course.*"]
     else "\n**Lessons:**" :: course.lessons.map (fun lesson =>
        let lesson_num :=
          match lesson.lesson_number with
          | some n => toString n
          | Option.none => "?"
        let lesson_title := lesson.lesson_title.getD "Untitled"
        let lesson_link := lesson.lesson_link.getD ""
        if lesson_link != "" then
          "- Lesson " ++ lesson_num ++ ": [" ++ lesson_title ++ "](" ++ lesson_link ++ ")"
        else
          "- Lesson " ++ lesson_num ++ ": " ++ lesson_title))
  ( String.intercalate "\n" lines,
    [{ display_text := title, course_title := title,
       lesson_number := Option.none, lesson_link := course.course_link }])

/-- CourseOutlineTool._format_all_courses: render the all-courses summary and
set last_sources to one course-level Source Record per course, in order. -/
def _format_all_courses (courses : List CourseMeta) (last_sources : List SourceRecord) :
    String × List SourceRecord :=
  if courses.isEmpty then ("No courses available.", last_sources)
  else
    let entries := courses.map (fun course =>
      let title := course.title.getD "Unknown Course"
      let instructor := course.instructor.getD "Unknown"
      let lessons := course.lessons
      let course_link := course.course_link
      let course_lines :=
        ["## " ++ title] ++
        (if pyTruthyOptStr course_link then ["**Link:** " ++ course_link.getD ""] else []) ++
        ["**Instructor:** " ++ instructor,
         "**Total Lessons:** " ++ toString lessons.length] ++
        (if lessons.isEmpty then []
         else
           let lesson_titles := (lessons.take 3).map (fun l =>
             "L" ++ (match l.lesson_number with
                     | some n => toString n
                     | Option.none => "?") ++ ": " ++ l.lesson_title.getD "Untitled")
           ["**Topics:** " ++ String.intercalate ", " lesson_titles] ++
           (if lessons.length > 3 then
              ["*... and " ++ toString (lessons.length - 3) ++ " more lessons*"]
            else [])) ++
        [""]
      let src : SourceRecord :=
        { display_text := title, course_title := title,
          lesson_number := Option.none, lesson_link := course_link }
      (course_lines, src))
    let lines := ["# Available Courses\n"] ++ (entries.map Prod.fst).flatten
    (String.intercalate "\n" lines, entries.map Prod.snd)

/-- CourseOutlineTool.execute: fetch the catalogue (an uncaught store
exception propagates), handle the empty catalogue, resolve a truthy course
name through the store's fuzzy matcher, and render one course or all. -/
def CourseOutlineTool.execute (store : VectorStore) (last_sources : List SourceRecord)
    (course_name : Val) : Except String (String × List SourceRecord) :=
  match store.get_all_courses_metadata with
  | .error e => .error e
  | .ok all_courses =>
      if all_courses.isEmpty then
        .ok ( "No courses available in the knowledge base.", last_sources)
      else if course_name.truthy then
        if pyTruthyOptStr (store.resolve_course_name course_name) then
          match all_courses.find? (fun course =>
              course.title == some ((store.resolve_course_name course_name).getD "")) with
          | some course => .ok (_format_single_course course)
          | Option.none =>
              .ok ( "Course metadata not found for '" ++
                (store.resolve_course_name course_name).getD "" ++ "'.", last_sources)
        else
          .ok ( "No course found matching '" ++ course_name.pyStr ++ "'.", last_sources)
      else
        .ok (_format_all_courses all_courses last_sources)

/-- Claim C8: with a non-empty catalogue and a non-empty course_name whose
fuzzy resolution yields no canonical title, the outline tool returns exactly
the not-found message with the requested name interpolated, and its source
list is unchanged by the call. -/
theorem outline_course_not_found (store : VectorStore) (ls : List SourceRecord)
    (s : String) (courses : List CourseMeta)
    (hm : store.get_all_courses_metadata = .ok courses)
    (hne : courses ≠ [])
    (hs : s ≠ "")
    (hres : store.resolve_course_name (Val.str s) = Option.none) :
    CourseOutlineTool.execute store ls (Val.str s) =
      .ok ( "No course found matching '" ++ s ++ "'.", ls) := by
  have h1 : courses.isEmpty = false := by
    rcases hc : courses with _ | ⟨c, cs⟩
    · exact absurd hc hne
    · simp
  simp only [CourseOutlineTool.execute, hm, hres, h1, Bool.false_eq_true, if_false]
  simp [Val.truthy, hs, pyTruthyOptStr, Val.pyStr]

/-- A store for the C8 witness: one catalogued course, failing resolution. -/
def w8store : VectorStore :=
  { search := fun _ _ _ => { documents := [], metadata := [], error := Option.none },
    get_all_courses_metadata := .ok
      [{ title := some "MCP", course_link := Option.none, instructor := Option.none,
         lessons := [] }],
    resolve_course_name := fun _ => Option.none }

theorem outline_course_not_found_witness :
    CourseOutlineTool.execute w8store [wsrc] (Val.str "Rust") =
      .ok ( "No course found matching 'Rust'.", [wsrc]) :=
  outline_course_not_found w8store [wsrc] "Rust"
    [{ title := some "MCP", course_link := Option.none, instructor := Option.none,
       lessons := [] }] rfl (by decide) (by decide) rfl

/-- One property of a tool definition's input schema. -/
structure ParamSpec where
  pname : String
  ptype : String
  pdescription : String
deriving DecidableEq

/-- A tool definition as returned by get_tool_definition: the name is read
with dict.get, hence optional. -/
structure ToolDefinition where
  name : Option String
  description : String
  properties : List ParamSpec
  required : List String
deriving DecidableEq

/-- A tool object as the registry sees it: its (pure) definition and its
execute method.  The method receives the keyword-argument mapping and the
tool's current last_sources attribute (none when the attribute does not
exist) and yields text and the attribute afterwards; Except.error models a
raised Python exception (e.g. a TypeError from keyword binding). -/
structure ToolInstance where
  defn : ToolDefinition
  run : List (String × Val) → Option (List SourceRecord) →
        Except String (String × Option (List SourceRecord))

/-- A registry slot: the tool object together with the current state of its
(optional) last_sources attribute. -/
structure ToolEntry where
  tool : ToolInstance
  sources : Option (List SourceRecord)

/-- ToolManager: the insertion-ordered name-to-tool mapping. -/
structure ToolManager where
  tools : List (String × ToolEntry)

/-- The definition advertised by CourseSearchTool.get_tool_definition. -/
def searchToolDefinition : ToolDefinition :=
  { name := some "search_course_content",
    description := "Search course materials with smart course name matching and lesson filtering",
    properties :=
      [{ pname := "query", ptype := "string",
         pdescription := "What to search for in the course content" },
       { pname := "course_name", ptype := "string",
         pdescription := "Course title (partial matches work, e.g. 'MCP', 'Introduction')" },
       { pname := "lesson_number", ptype := "integer",
         pdescription := "Specific lesson number to search within (e.g. 1, 2, 3)" }],
    required := ["query"] }

/-- The definition advertised by CourseOutlineTool.get_tool_definition. -/
def outlineToolDefinition : ToolDefinition :=
  { name := some "get_course_outline",
    description := "Get structured course outline with lessons, instructor, and links",
    properties :=
      [{ pname := "course_name", ptype := "string",
         pdescription := "Course title to get outline for (partial matches work). Leave empty to get all courses." }],
    required := [] }

/-- Python keyword binding plus CourseSearchTool.execute: a TypeError is
raised for an unexpected keyword or a missing query; otherwise the optional
parameters default to None and execute runs (and always returns). -/
def searchToolRun (store : VectorStore) (kwargs : List (String × Val))
    (srcs : Option (List SourceRecord)) :
    Except String (String × Option (List SourceRecord)) :=
  if kwargs.any (fun kv =>
      kv.1 != "query" && kv.1 != "course_name" && kv.1 != "lesson_number") then
    .error "TypeError: unexpected keyword argument"
  else
    match kwargs.lookup "query" with
    | Option.none => .error "TypeError: missing required argument: query"
    | some q =>
        let cn := (kwargs.lookup "course_name").getD Val.none
        let ln := (kwargs.lookup "lesson_number").getD Val.none
        let res := CourseSearchTool.execute store (srcs.getD []) q cn ln
        .ok (res.1, some res.2)

/-- Python keyword binding plus CourseOutlineTool.execute; the store's
metadata fetch is not guarded there, so its exception propagates. -/
def outlineToolRun (store : VectorStore) (kwargs : List (String × Val))
    (srcs : Option (List SourceRecord)) :
    Except String (String × Option (List SourceRecord)) :=
  if kwargs.any (fun kv => kv.1 != "course_name") then
    .error "TypeError: unexpected keyword argument"
  else
    let cn := (kwargs.lookup "course_name").getD Val.none
    match CourseOutlineTool.execute store (srcs.getD []) cn with
    | .error e => .error e
    | .ok res => .ok (res.1, some res.2)

/-- A CourseSearchTool object over a given store. -/
def searchToolInstance (store : VectorStore) : ToolInstance :=
  { defn := searchToolDefinition, run := searchToolRun store }

/-- A CourseOutlineTool object over a given store. -/
def outlineToolInstance (store : VectorStore) : ToolInstance :=
  { defn := outlineToolDefinition, run := outlineToolRun store }

/-- Python dict insertion: overwrite in place when the key exists, append
otherwise. -/
def dictInsert {α : Type} (k : String) (v : α) (d : List (String × α)) :
    List (String × α) :=
  if (d.lookup k).isSome then d.map (fun p => if p.1 = k then (k, v) else p)
  else d ++ [(k, v)]

/-- ToolManager.register_tool: read the definition's name, raise ValueError
when it is missing or empty, otherwise insert under that name. -/
def ToolManager.register_tool (m : ToolManager) (e : ToolEntry) :
    Except String ToolManager :=
  let tool_name := e.tool.defn.name
  if pyTruthyOptStr tool_name then
    .ok { tools := dictInsert (tool_name.getD "") e m.tools }
  else
    .error "Tool must have a 'name' in its definition"

/-- ToolManager.get_tool_definitions: every registered tool's definition, in
mapping order. -/
def ToolManager.get_tool_definitions (m : ToolManager) : List ToolDefinition :=
  m.tools.map (fun p => p.2.tool.defn)

/-- ToolManager.execute_tool: the not-found text for unknown names, else the
tool's execute, whose written-back last_sources lands in the registry slot. -/
def ToolManager.execute_tool (m : ToolManager) (tool_name : String)
    (kwargs : List (String × Val)) : Except String (String × ToolManager) :=
  match m.tools.lookup tool_name with
  | Option.none => .ok ( "Tool '" ++ tool_name ++ "' not found", m)
  | some e =>
      match e.tool.run kwargs e.sources with
      | .error err => .error err
      | .ok res =>
          .ok (res.1, { tools := m.tools.map (fun p =>
              if p.1 = tool_name then (p.1, { tool := p.2.tool, sources := res.2 })
              else p) })

/-- The scan of ToolManager.get_last_sources: first tool having the
last_sources attribute with a truthy (non-empty) value. -/
def getLastSourcesScan : List (String × ToolEntry) → List SourceRecord
  | [] => []
  | (_, e) :: rest =>
      match e.sources with
      | some l => if l.isEmpty then getLastSourcesScan rest else l
      | Option.none => getLastSourcesScan rest

/-- ToolManager.get_last_sources. -/
def ToolManager.get_last_sources (m : ToolManager) : List SourceRecord :=
  getLastSourcesScan m.tools

/-- ToolManager.reset_sources: set last_sources to [] on every tool that has
the attribute; tools without it are untouched. -/
def ToolManager.reset_sources (m : ToolManager) : ToolManager :=
  { tools := m.tools.map (fun p =>
      (p.1, { tool := p.2.tool,
              sources := p.2.sources.map (fun _ => ([] : List SourceRecord)) })) }

/-- Claim C5: dispatch of a name not in the registry returns exactly the
interpolated not-found text, for every argument map, without raising. -/
theorem execute_tool_not_found (m : ToolManager) (name : String)
    (kwargs : List (String × Val))
    (h : m.tools.lookup name = Option.none) :
    m.execute_tool name kwargs = .ok ( "Tool '" ++ name ++ "' not found", m) := by
  simp only [ToolManager.execute_tool, h]

/-- The empty registry. -/
def w5mgr : ToolManager := { tools := [] }

theorem execute_tool_not_found_witness :
    w5mgr.execute_tool "missing_tool" [] =
      .ok ( "Tool 'missing_tool' not found", w5mgr) :=
  execute_tool_not_found w5mgr "missing_tool" [] rfl

/-- Claim C9: clearing resets every tool's source-tracking state to empty
(tools without the attribute stay without it), a collect right after a clear
returns the empty sequence, and clearing is idempotent — for every registry
state whatsoever. -/
theorem reset_sources_clears (m : ToolManager) :
    m.reset_sources.get_last_sources = []
    ∧ m.reset_sources.reset_sources = m.reset_sources
    ∧ ∀ p ∈ m.reset_sources.tools,
        p.2.sources = Option.none ∨ p.2.sources = some [] := by
  refine ⟨?_, ?_, ?_⟩
  · show getLastSourcesScan (m.tools.map _) = []
    induction m.tools with
    | nil => rfl
    | cons p rest ih =>
        rcases hp : p.2.sources with _ | l <;>
          simp [getLastSourcesScan, hp, ih]
  · simp only [ToolManager.reset_sources]
    congr 1
    rw [List.map_map]
    apply List.map_congr_left
    intro p _
    rcases hp : p.2.sources with _ | l <;> simp [hp]
  · intro p hp
    rcases List.mem_map.mp hp with ⟨q, hq, rfl⟩
    rcases hq2 : q.2.sources with _ | l <;> simp [hq2]

/-- A registry with one populated source-tracking tool and one tool without
the extension. -/
def w9mgr : ToolManager :=
  { tools :=
      [("search_course_content",
        { tool := searchToolInstance w1store, sources := some [wsrc] }),
       ("plain",
        { tool := { defn := outlineToolDefinition,
                    run := fun _ srcs => .ok ("", srcs) },
          sources := Option.none })] }

theorem reset_sources_clears_witness :
    w9mgr.reset_sources.get_last_sources = [] :=
  (reset_sources_clears w9mgr).1

/-- Claim C10: collect returns the source list of the first tool in
registration order whose source list is non-empty (tools without the
extension contributing nothing), or the empty sequence; and clear rewrites
exactly the tools that have the extension, leaving the others untouched.
Both are total functions of the registry state, so they complete without
error on every state, including ones with extension-less tools. -/
theorem get_last_sources_first_nonempty (m : ToolManager) :
    m.get_last_sources =
      (match m.tools.find? (fun p => p.2.sources.getD [] != []) with
       | some p => p.2.sources.getD []
       | Option.none => [])
    ∧ m.reset_sources.tools = m.tools.map (fun p =>
        if p.2.sources = Option.none then p
        else (p.1, { tool := p.2.tool, sources := some [] })) := by
  constructor
  · show getLastSourcesScan m.tools = _
    induction m.tools with
    | nil => rfl
    | cons p rest ih =>
        rcases hp : p.2.sources with _ | l
        · simp [getLastSourcesScan, List.find?, hp, ih]
        · rcases l with _ | ⟨a, l0⟩
          · simp [getLastSourcesScan, List.find?, hp, ih]
          · have hne : ((a :: l0) != ([] : List SourceRecord)) = true := rfl
            simp [getLastSourcesScan, List.find?, hp, hne]
  · show m.tools.map _ = m.tools.map _
    apply List.map_congr_left
    intro p _
    obtain ⟨k, e⟩ := p
    obtain ⟨tl, srcs⟩ := e
    rcases srcs with _ | l <;> simp

theorem lookup_append {β : Type} (k : String) :
    ∀ (d₁ d₂ : List (String × β)),
      (d₁ ++ d₂).lookup k =
        match d₁.lookup k with
        | some v => some v
        | Option.none => d₂.lookup k
  | [], d₂ => by simp [List.lookup]
  | (a, b) :: d₁, d₂ => by
      by_cases hk : k = a
      · have h1 : (k == a) = true := by simp [hk]
        simp [List.lookup, h1]
      · have h2 : (k == a) = false := by simp [hk]
        simp [List.lookup, h2, lookup_append k d₁ d₂]

theorem lookup_replaceAll {α : Type} (k : String) (v : α) (x : String) :
    ∀ (d : List (String × α)),
      (d.map (fun p => if p.1 = k then (k, v) else p)).lookup x =
        (if x = k then (if (d.lookup k).isSome then some v else Option.none)
         else d.lookup x)
  | [] => by
      by_cases hx : x = k <;> simp [List.lookup, hx]
  | (a, b) :: d => by
      have ih := lookup_replaceAll k v x d
      by_cases hak : a = k
      · subst hak
        have hhead : (if ((a, b) : String × α).1 = a then (a, v) else (a, b)) = (a, v) := by
          simp
        rw [List.map_cons, hhead]
        by_cases hx : x = a
        · subst hx
          simp [List.lookup]
        · have hxa : (x == a) = false := by simp [hx]
          simp [List.lookup, hxa, hx, ih]
      · have hka2 : (k == a) = false := by
          rw [beq_eq_false_iff_ne]
          exact fun hh => hak hh.symm
        have hhead : (if ((a, b) : String × α).1 = k then (k, v) else (a, b)) = (a, b) := by
          simp [hak]
        rw [List.map_cons, hhead]
        by_cases hx : x = a
        · subst hx
          simp [List.lookup, hak]
        · have hxa : (x == a) = false := by simp [hx]
          have h1 : List.lookup x ((a, b) :: List.map (fun p => if p.1 = k then (k, v) else p) d)
              = List.lookup x (List.map (fun p => if p.1 = k then (k, v) else p) d) := by
            simp [List.lookup, hxa]
          have h2 : List.lookup k ((a, b) :: d) = List.lookup k d := by
            simp [List.lookup, hka2]
          have h3 : List.lookup x ((a, b) :: d) = List.lookup x d := by
            simp [List.lookup, hxa]
          rw [h1, h2, h3, ih]

theorem dictInsert_lookup {α : Type} (k : String) (v : α) (d : List (String × α))
    (x : String) :
    (dictInsert k v d).lookup x = if x = k then some v else d.lookup x := by
  by_cases hs : (d.lookup k).isSome = true
  · rw [dictInsert, if_pos hs, lookup_replaceAll]
    by_cases hx : x = k <;> simp [hx, hs]
  · have hs2 : d.lookup k = Option.none := by
      rcases ho : d.lookup k with _ | w
      · rfl
      · rw [ho] at hs; simp at hs
    rw [dictInsert, if_neg hs, lookup_append x d [(k, v)]]
    by_cases hx : x = k
    · have hxk : (x == k) = true := by simp [hx]
      rw [hx, hs2]
      simp [List.lookup, hxk]
    · have hxk : (x == k) = false := by simp [hx]
      rcases ho : d.lookup x with _ | w <;> simp [List.lookup, hxk, hx, ho]

theorem dictInsert_keys_replace {α : Type} (k : String) (v : α)
    (d : List (String × α)) (h : (d.lookup k).isSome = true) :
    (dictInsert k v d).map Prod.fst = d.map Prod.fst := by
  rw [dictInsert, if_pos h, List.map_map]
  apply List.map_congr_left
  intro p _
  by_cases hp : p.1 = k <;> simp [hp]

theorem dictInsert_keys_append {α : Type} (k : String) (v : α)
    (d : List (String × α)) (h : (d.lookup k).isSome = false) :
    (dictInsert k v d).map Prod.fst = d.map Prod.fst ++ [k] := by
  rw [dictInsert, if_neg]
  · simp
  · simp [h]

/-- First-occurrence deduplication of a key sequence: the order Python dict
keys take when the same keys are repeatedly inserted. -/
def firstDedup : List String → List String
  | [] => []
  | k :: rest => k :: firstDedup (rest.filter (fun x => x != k))
termination_by l => l.length
decreasing_by
  simp only [List.length_cons]
  exact Nat.lt_succ_of_le (List.length_filter_le _ _)

theorem mem_firstDedup {x : String} :
    ∀ {l : List String}, x ∈ firstDedup l → x ∈ l
  | [], h => by simp [firstDedup] at h
  | k :: rest, h => by
      rw [firstDedup] at h
      rcases List.mem_cons.mp h with h1 | h2
      · exact h1 ▸ List.mem_cons_self _ _
      · exact List.mem_cons_of_mem _ (List.mem_of_mem_filter (mem_firstDedup h2))
termination_by l => l.length
decreasing_by
  simp only [List.length_cons]
  exact Nat.lt_succ_of_le (List.length_filter_le _ _)

theorem nodup_firstDedup : ∀ (l : List String), (firstDedup l).Nodup
  | [] => by simp [firstDedup]
  | k :: rest => by
      rw [firstDedup, List.nodup_cons]
      refine ⟨?_, nodup_firstDedup (rest.filter (fun x => x != k))⟩
      intro hmem
      have hx := List.of_mem_filter (mem_firstDedup hmem)
      simp at hx
termination_by l => l.length
decreasing_by
  simp only [List.length_cons]
  exact Nat.lt_succ_of_le (List.length_filter_le _ _)

/-- The key a tool with a truthy name registers under. -/
def entryName (e : ToolEntry) : String := e.tool.defn.name.getD ""

/-- The state after one register call, a raising register (absent name)
leaving the registry unchanged; used to fold call sequences. -/
def registerOk (m : ToolManager) (e : ToolEntry) : ToolManager :=
  match m.register_tool e with
  | .ok m2 => m2
  | .error _ => m

/-- A sequence of register calls against a fresh registry. -/
def registerAll (ts : List ToolEntry) : ToolManager :=
  ts.foldl registerOk { tools := [] }

theorem registerOk_eq (m : ToolManager) (e : ToolEntry)
    (h : pyTruthyOptStr e.tool.defn.name = true) :
    registerOk m e = { tools := dictInsert (entryName e) e m.tools } := by
  simp [registerOk, ToolManager.register_tool, h, entryName]

theorem keys_foldl_registerOk :
    ∀ (ts : List ToolEntry) (m : ToolManager),
      (∀ e ∈ ts, pyTruthyOptStr e.tool.defn.name = true) →
      (ts.foldl registerOk m).tools.map Prod.fst =
        m.tools.map Prod.fst ++
          firstDedup ((ts.map entryName).filter
            (fun x => (m.tools.lookup x).isNone))
  | [], m, _ => by simp [firstDedup]
  | e :: ts, m, h => by
      have he : pyTruthyOptStr e.tool.defn.name = true := h e (List.mem_cons_self _ _)
      have hts : ∀ x ∈ ts, pyTruthyOptStr x.tool.defn.name = true :=
        fun x hx => h x (List.mem_cons_of_mem _ hx)
      rw [List.foldl_cons, registerOk_eq m e he,
        keys_foldl_registerOk ts _ hts]
      by_cases hk : (m.tools.lookup (entryName e)).isSome = true
      · have hkn : (m.tools.lookup (entryName e)).isNone = false := by
          rcases ho : m.tools.lookup (entryName e) with _ | w
          · rw [ho] at hk; simp at hk
          · rfl
        have hfil : (ts.map entryName).filter
              (fun x => ((dictInsert (entryName e) e m.tools).lookup x).isNone)
            = (ts.map entryName).filter (fun x => (m.tools.lookup x).isNone) := by
          apply List.filter_congr
          intro x _
          rw [dictInsert_lookup]
          by_cases hx : x = entryName e
          · rw [if_pos hx, hx, hkn]
            rfl
          · rw [if_neg hx]
        have hpred : ((e :: ts).map entryName).filter
              (fun x => (m.tools.lookup x).isNone)
            = (ts.map entryName).filter (fun x => (m.tools.lookup x).isNone) := by
          simp only [List.map_cons, List.filter_cons, hkn]
          simp
        rw [dictInsert_keys_replace _ _ _ hk]
        show m.tools.map Prod.fst ++ firstDedup ((ts.map entryName).filter _) = _
        rw [hfil, hpred]
      · have hnone : m.tools.lookup (entryName e) = Option.none := by
          rcases ho : m.tools.lookup (entryName e) with _ | w
          · rfl
          · exact absurd (by rw [ho]; rfl) hk
        have hk2 : (m.tools.lookup (entryName e)).isSome = false := by
          rw [hnone]
          rfl
        have hfil : (ts.map entryName).filter
              (fun x => ((dictInsert (entryName e) e m.tools).lookup x).isNone)
            = ((ts.map entryName).filter
                (fun x => (m.tools.lookup x).isNone)).filter
                (fun x => x != entryName e) := by
          rw [List.filter_filter]
          apply List.filter_congr
          intro x _
          rw [dictInsert_lookup]
          by_cases hx : x = entryName e
          · have hb : (x != entryName e) = false := by simp [hx]
            rw [if_pos hx, hb]
            simp
          · have hb : (x != entryName e) = true := by simp [hx]
            rw [if_neg hx, hb]
            simp
        have hpred : ((e :: ts).map entryName).filter
              (fun x => (m.tools.lookup x).isNone)
            = entryName e ::
                (ts.map entryName).filter (fun x => (m.tools.lookup x).isNone) := by
          simp only [List.map_cons, List.filter_cons, hnone]
          rfl
        rw [dictInsert_keys_append _ _ _ hk2]
        show (m.tools.map Prod.fst ++ [entryName e]) ++
            firstDedup ((ts.map entryName).filter _) = _
        rw [hfil, hpred, firstDedup, List.append_assoc]
        rfl

/-- Claim C6: over any sequence of register calls with truthy-named tools,
the registry keys are exactly the first-occurrence deduplication of the
registered names (one definition per unique name, in registration order,
with re-registration overwriting in place rather than growing the count),
the keys are duplicate-free, the definition count equals the unique-name
count, a register call returns the updated registry with the entry stored
under its name (last-registered wins), and registering a tool whose
definition has a missing or empty name raises at registration time. -/
theorem register_and_list_definitions :
    (∀ ts : List ToolEntry,
        (∀ e ∈ ts, pyTruthyOptStr e.tool.defn.name = true) →
        (registerAll ts).tools.map Prod.fst = firstDedup (ts.map entryName)
        ∧ ((registerAll ts).tools.map Prod.fst).Nodup
        ∧ (registerAll ts).get_tool_definitions.length
            = (firstDedup (ts.map entryName)).length)
    ∧ (∀ (m : ToolManager) (e : ToolEntry),
        pyTruthyOptStr e.tool.defn.name = true →
        m.register_tool e = .ok (registerOk m e)
        ∧ (registerOk m e).tools.lookup (entryName e) = some e
        ∧ ((m.tools.lookup (entryName e)).isSome = true →
            (registerOk m e).tools.map Prod.fst = m.tools.map Prod.fst)
        ∧ ((m.tools.lookup (entryName e)).isSome = false →
            (registerOk m e).tools.map Prod.fst
              = m.tools.map Prod.fst ++ [entryName e]))
    ∧ (∀ (m : ToolManager) (e : ToolEntry),
        pyTruthyOptStr e.tool.defn.name = false →
        m.register_tool e = .error "Tool must have a 'name' in its definition") := by
  have hkeys : ∀ ts : List ToolEntry,
      (∀ e ∈ ts, pyTruthyOptStr e.tool.defn.name = true) →
      (registerAll ts).tools.map Prod.fst = firstDedup (ts.map entryName) := by
    intro ts h
    rw [registerAll, keys_foldl_registerOk ts _ h]
    have : (ts.map entryName).filter
        (fun x => ((({ tools := [] } : ToolManager).tools.lookup x)).isNone)
        = ts.map entryName := by
      apply List.filter_eq_self.mpr
      intro a _
      rfl
    rw [this]
    rfl
  refine ⟨?_, ?_, ?_⟩
  · intro ts h
    refine ⟨hkeys ts h, ?_, ?_⟩
    · rw [hkeys ts h]
      exact nodup_firstDedup _
    · have h2 : (registerAll ts).get_tool_definitions.length
          = ((registerAll ts).tools.map Prod.fst).length := by
        simp [ToolManager.get_tool_definitions]
      rw [h2, hkeys ts h]
  · intro m e he
    refine ⟨?_, ?_, ?_, ?_⟩
    · rw [registerOk_eq m e he]
      simp [ToolManager.register_tool, he, entryName]
    · rw [registerOk_eq m e he]
      show (dictInsert (entryName e) e m.tools).lookup (entryName e) = some e
      rw [dictInsert_lookup]
      simp
    · intro hk
      rw [registerOk_eq m e he]
      exact dictInsert_keys_replace _ _ _ hk
    · intro hk
      rw [registerOk_eq m e he]
      exact dictInsert_keys_append _ _ _ hk
  · intro m e he
    simp [ToolManager.register_tool, he]

/-- Concrete tool entries for the registration witness: two distinct names,
then the first name re-registered with a different instance. -/
def w6e1 : ToolEntry := { tool := searchToolInstance w1store, sources := some [] }

/-- Second registration witness entry (the outline tool). -/
def w6e2 : ToolEntry := { tool := outlineToolInstance w1store, sources := some [] }

/-- Third registration witness entry: the search tool again, other store. -/
def w6e3 : ToolEntry := { tool := searchToolInstance c4store, sources := some [] }

theorem register_and_list_definitions_witness :
    (registerAll [w6e1, w6e2, w6e3]).tools.map Prod.fst =
      firstDedup ([w6e1, w6e2, w6e3].map entryName) :=
  (register_and_list_definitions.1 [w6e1, w6e2, w6e3]
    (by
      intro e he
      simp only [List.mem_cons, List.not_mem_nil, or_false] at he
      rcases he with rfl | rfl | rfl <;> rfl)).1

theorem lookup_isSome_of_mem_keys {β : Type} (k : String) :
    ∀ (d : List (String × β)), k ∈ d.map Prod.fst → (d.lookup k).isSome = true
  | [], h => by simp at h
  | (a, b) :: d, h => by
      by_cases hk : k = a
      · have h1 : (k == a) = true := by simp [hk]
        simp [List.lookup, h1]
      · have h2 : (k == a) = false := by simp [hk]
        simp only [List.map_cons, List.mem_cons] at h
        rcases h with h | h
        · exact absurd h hk
        · simp [List.lookup, h2, lookup_isSome_of_mem_keys k d h]

/-- Spec-side: an argument map conforms to a tool definition's schema when
every key names a declared property and every required property is present. -/
def bindsSchema (d : ToolDefinition) (kwargs : List (String × Val)) : Bool :=
  kwargs.all (fun kv => (d.properties.map ParamSpec.pname).contains kv.1) &&
  d.required.all (fun r => (kwargs.map Prod.fst).contains r)

/-- A registry entry holding one of this repository's two tools; for the
outline tool the store's metadata fetch must succeed, since its execute does
not guard that call. -/
def goodEntry (e : ToolEntry) : Prop :=
  (∃ store, e.tool = searchToolInstance store) ∨
  (∃ store l, e.tool = outlineToolInstance store ∧
      store.get_all_courses_metadata = .ok l)

/-- A registry holding the search tool, for the C3 counterexample. -/
def c3mgrA : ToolManager :=
  { tools := [("search_course_content",
      { tool := searchToolInstance w1store, sources := some [] })] }

/-- A store whose bulk metadata fetch raises. -/
def c3storeDown : VectorStore :=
  { search := fun _ _ _ => { documents := [], metadata := [], error := Option.none },
    get_all_courses_metadata := .error "store connection failed",
    resolve_course_name := fun _ => Option.none }

/-- A registry holding the outline tool over the raising store. -/
def c3mgrB : ToolManager :=
  { tools := [("get_course_outline",
      { tool := outlineToolInstance c3storeDown, sources := some [] })] }

/-- Claim C3 counterexample: dispatching to the search tool with an argument
map that lacks the required query raises a TypeError out of dispatch, and
dispatching to the outline tool over a store whose metadata fetch raises
propagates that exception; in neither case is text returned. -/
theorem dispatch_raises_cex :
    c3mgrA.execute_tool "search_course_content" [] =
      .error "TypeError: missing required argument: query" ∧
    c3mgrB.execute_tool "get_course_outline" [] =
      .error "store connection failed" := by
  refine ⟨rfl, rfl⟩

/-- Claim C3 (amended): for every registry whose tools are this repository's
two tools (over stores whose metadata fetch succeeds where unguarded), every
tool name and every argument map that conforms to the named tool's declared
schema, dispatch returns plain text and never raises; unknown names, store
search errors and not-found conditions are all surfaced only as returned
text. -/
theorem dispatch_no_raise (m : ToolManager)
    (hm : ∀ p ∈ m.tools, goodEntry p.2)
    (name : String) (kwargs : List (String × Val))
    (hbind : ∀ e, m.tools.lookup name = some e →
        bindsSchema e.tool.defn kwargs = true) :
    ∃ text m2, m.execute_tool name kwargs = .ok (text, m2) := by
  rcases hl : m.tools.lookup name with _ | e
  · exact ⟨ "Tool '" ++ name ++ "' not found", m,
      by simp only [ToolManager.execute_tool, hl]⟩
  · have hg := hm _ (lookup_mem hl)
    have hb := hbind e hl
    simp only [ToolManager.execute_tool, hl]
    rcases hg with ⟨store, hs⟩ | ⟨store, l, hs, hsl⟩
    · rw [hs] at hb ⊢
      simp only [searchToolInstance, searchToolDefinition, bindsSchema] at hb ⊢
      rw [Bool.and_eq_true] at hb
      have h1 : ∀ kv ∈ kwargs,
          kv.1 = "query" ∨ kv.1 = "course_name" ∨ kv.1 = "lesson_number" := by
        intro kv hkv
        have h3 := List.all_eq_true.mp hb.1 kv hkv
        simpa using h3
      have h2 : "query" ∈ kwargs.map Prod.fst := by
        have h3 := List.all_eq_true.mp hb.2 "query" (by simp)
        simpa using h3
      have hany : (kwargs.any (fun kv =>
          kv.1 != "query" && kv.1 != "course_name" && kv.1 != "lesson_number"))
          = false := by
        rw [Bool.eq_false_iff]
        intro hcon
        rcases List.any_eq_true.mp hcon with ⟨kv, hkv, hp⟩
        rcases h1 kv hkv with h | h | h <;> simp [h] at hp
      have hq : (kwargs.lookup "query").isSome = true :=
        lookup_isSome_of_mem_keys _ kwargs h2
      rcases hqq : kwargs.lookup "query" with _ | q
      · rw [hqq] at hq
        simp at hq
      · have hrun : searchToolRun store kwargs e.sources =
            .ok ((CourseSearchTool.execute store (e.sources.getD []) q
                ((kwargs.lookup "course_name").getD Val.none)
                ((kwargs.lookup "lesson_number").getD Val.none)).1,
              some (CourseSearchTool.execute store (e.sources.getD []) q
                ((kwargs.lookup "course_name").getD Val.none)
                ((kwargs.lookup "lesson_number").getD Val.none)).2) := by
          unfold searchToolRun
          rw [hany, hqq]
          rfl
        rw [hrun]
        exact ⟨_, _, rfl⟩
    · rw [hs] at hb ⊢
      simp only [outlineToolInstance, outlineToolDefinition, bindsSchema] at hb ⊢
      rw [Bool.and_eq_true] at hb
      have h1 : ∀ kv ∈ kwargs, kv.1 = "course_name" := by
        intro kv hkv
        have h3 := List.all_eq_true.mp hb.1 kv hkv
        simpa using h3
      have hany : (kwargs.any (fun kv => kv.1 != "course_name")) = false := by
        rw [Bool.eq_false_iff]
        intro hcon
        rcases List.any_eq_true.mp hcon with ⟨kv, hkv, hp⟩
        simp [h1 kv hkv] at hp
      have hex : ∃ res, CourseOutlineTool.execute store (e.sources.getD [])
          ((kwargs.lookup "course_name").getD Val.none) = .ok res := by
        unfold CourseOutlineTool.execute
        rw [hsl]
        split
        · next err heq => simp at heq
        · split
          · exact ⟨_, rfl⟩
          · split
            · split
              · split
                · exact ⟨_, rfl⟩
                · exact ⟨_, rfl⟩
              · exact ⟨_, rfl⟩
            · exact ⟨_, rfl⟩
      obtain ⟨res, hres⟩ := hex
      have hrun : outlineToolRun store kwargs e.sources = .ok (res.1, some res.2) := by
        unfold outlineToolRun
        rw [hany]
        show (match CourseOutlineTool.execute store (e.sources.getD [])
            ((kwargs.lookup "course_name").getD Val.none) with
          | Except.error e2 => Except.error e2
          | Except.ok r => Except.ok (r.1, some r.2)) = Except.ok (res.1, some res.2)
        rw [hres]
      rw [hrun]
      exact ⟨_, _, rfl⟩

/-- A registry with both concrete tools for the dispatch witness. -/
def w3mgr : ToolManager :=
  { tools := [("search_course_content",
      { tool := searchToolInstance w1store, sources := some [] }),
     ("get_course_outline",
      { tool := outlineToolInstance w1store, sources := some [] })] }

theorem dispatch_no_raise_witness :
    ∃ text m2, w3mgr.execute_tool "search_course_content"
        [("query", Val.str "hello")] = .ok (text, m2) :=
  dispatch_no_raise w3mgr
    (by
      intro p hp
      simp only [w3mgr, List.mem_cons, List.not_mem_nil, or_false] at hp
      rcases hp with rfl | rfl
      · exact Or.inl ⟨w1store, rfl⟩
      · exact Or.inr ⟨w1store, [], rfl, rfl⟩)
    "search_course_content" [("query", Val.str "hello")]
    (by
      intro e he
      have he2 : some (ToolEntry.mk (searchToolInstance w1store) (some [])) = some e := he
      cases he2
      rfl)
